import Mathlib

/-!
Verification of the balance-ledger subsystem of the `home-test-nutech`
repository: the invoice-number allocator and its trigger
(`src/migrations/0000_init.sql`), the account-provisioning trigger, the
`user_transactions` schema (`src/lib/model/user_transactions.js`), and the
transaction controller (`src/lib/routes/transaction/transaction.controller.js`).

Machine integers of the source (Postgres `integer`, JS numbers) are modelled
as `Int`/`Nat`; the amounts and sequence numbers involved stay far below any
overflow boundary, which both Postgres and the JS code assume as well.
SQL text values are Lean `String`s; Postgres string comparison
(`ORDER BY invoice_number DESC`) is modelled byte-wise on code points, which
coincides with Postgres behaviour on the pure-ASCII invoice strings involved.
Calendar days are abstracted as a day index `Nat` together with the
`DDMMYYYY` rendering (a `String` parameter), since the allocator only ever
compares dates for equality and splices the rendered date into the invoice.
-/

namespace NutechLedger

/-! ## String primitives used by the SQL allocator -/

/-- Byte-wise (code-point) lexicographic strict order on character lists,
the order Postgres uses for `text` comparison under the C collation and on
the ASCII-only invoice strings in this schema. -/
def charListLt : List Char → List Char → Bool
  | [], [] => false
  | [], _ :: _ => true
  | _ :: _, [] => false
  | a :: as, b :: bs =>
    if a.toNat < b.toNat then true
    else if b.toNat < a.toNat then false
    else charListLt as bs

/-- Lexicographic strict order on strings (see `charListLt`). -/
def strLtB (a b : String) : Bool := charListLt a.data b.data

/-- The string selected by `ORDER BY invoice_number DESC LIMIT 1`:
the lexicographic maximum of the candidate list (`none` on no rows). -/
def lexMax : List String → Option String
  | [] => none
  | s :: rest => some (rest.foldl (fun a b => if strLtB a b then b else a) s)

/-- The digit suffix of a string: Postgres `SUBSTRING(s FROM '[0-9]+$')`. -/
def trailingDigits (s : String) : List Char :=
  (s.data.reverse.takeWhile Char.isDigit).reverse

/-- Decimal value of a digit list: Postgres `CAST(... AS INT)`. -/
def digitsToNat (l : List Char) : Nat :=
  l.foldl (fun a c => a * 10 + (c.toNat - 48)) 0

/-- Postgres `LPAD(s, n, c)`: left-pad `s` with `c` to length `n`
(truncating to the first `n` characters when `s` is longer). -/
def lpad (s : String) (n : Nat) (c : Char) : String :=
  if n ≤ s.length then String.mk (s.data.take n)
  else String.mk (List.replicate (n - s.length) c ++ s.data)

/-! ## The `user_transactions` table -/

/-- A stored row of `user_transactions` (`0000_init.sql`,
`src/lib/model/user_transactions.js`). `created_on` is `Option` because the
column is nullable; `invoice_number` is a plain `String` because the column
is `NOT NULL`. Timestamps are abstracted to a day index. -/
structure UTxnRow where
  id : Nat
  user_id : Nat
  invoice_number : String
  service_id : Option Nat := none
  description : String := ""
  total_amount : Int := 0
  created_on : Option Nat := none
  transaction_type_id : Nat := 1
deriving Repr, DecidableEq

/-- An incoming `INSERT` row (`NEW` in the trigger): `invoice_number` may be
NULL on the way in, the `BEFORE INSERT` trigger fills it. -/
structure NewUTxn where
  user_id : Nat
  invoice_number : Option String := none
  service_id : Option Nat := none
  description : String := ""
  total_amount : Int := 0
  created_on : Option Nat := none
  transaction_type_id : Nat := 1
deriving Repr, DecidableEq

/-! ## The invoice allocator (`generate_invoice_number`, 0000_init.sql) -/

/-- SQL `s LIKE pfx || '%'`: `pfx` is a prefix of `s` (the allocator's
pattern contains no other wildcard). -/
def likeB (pfx s : String) : Bool := pfx.data.isPrefixOf s.data

/-- The allocator's scan: invoices of rows whose `DATE(created_on)` equals
`CURRENT_DATE` (a row with NULL `created_on` never matches) and whose
`invoice_number` matches `LIKE 'INV' || current_date_str || '-%'`. -/
def todaysInvoices (dstr : String) (today : Nat) (rows : List UTxnRow) : List String :=
  (rows.filter (fun r =>
    r.created_on == some today &&
    likeB ("INV" ++ dstr ++ "-") r.invoice_number)).map (fun r => r.invoice_number)

/-- `next_sequence` of `generate_invoice_number`: digit suffix of the
`ORDER BY invoice_number DESC LIMIT 1` row plus one, or 1 when the scan
returns no row. -/
def next_sequence (dstr : String) (today : Nat) (rows : List UTxnRow) : Nat :=
  match lexMax (todaysInvoices dstr today rows) with
  | some last_invoice => digitsToNat (trailingDigits last_invoice) + 1
  | none => 1

/-- `generate_invoice_number` (0000_init.sql lines 87-115): builds
`'INV' || date || '-' || LPAD(seq, GREATEST(3, LENGTH(seq)), '0')`. -/
def generate_invoice_number (dstr : String) (today : Nat) (rows : List UTxnRow) : String :=
  let seq := next_sequence dstr today rows
  let min_digits := max 3 (toString seq).length
  "INV" ++ dstr ++ "-" ++ lpad (toString seq) min_digits '0'

/-- `trigger_generate_invoice_number`: `BEFORE INSERT ... WHEN
(NEW.invoice_number IS NULL)` — fills `NEW.invoice_number` from the
allocator only when it is NULL, otherwise leaves `NEW` untouched. -/
def applyInvoiceTrigger (dstr : String) (today : Nat) (rows : List UTxnRow)
    (n : NewUTxn) : NewUTxn :=
  match n.invoice_number with
  | none => { n with invoice_number := some (generate_invoice_number dstr today rows) }
  | some _ => n

/-- An `INSERT INTO user_transactions`: run the `BEFORE INSERT` trigger, then
store the row; `none` models a `NOT NULL` violation on `invoice_number`
(unreachable in practice, the trigger fills NULL values). `nid` is the
serial id the database assigns. -/
def insert_user_transaction (dstr : String) (today : Nat) (rows : List UTxnRow)
    (nid : Nat) (n : NewUTxn) : Option (List UTxnRow) :=
  match applyInvoiceTrigger dstr today rows n with
  | n2 =>
    match n2.invoice_number with
    | none => none
    | some v =>
      some (rows ++ [{ id := nid, user_id := n2.user_id, invoice_number := v,
                       service_id := n2.service_id, description := n2.description,
                       total_amount := n2.total_amount, created_on := n2.created_on,
                       transaction_type_id := n2.transaction_type_id }])

/-! ## Schema metadata of `user_transactions` (0000_init.sql lines 28-37) -/

/-- One column declaration of a `CREATE TABLE` statement. -/
structure ColumnSpec where
  name : String
  sqlType : String
  notNull : Bool
  hasDefault : Bool
deriving Repr, DecidableEq

/-- The columns of `CREATE TABLE "user_transactions"` exactly as declared:
`created_on timestamp with time zone` is nullable and carries no default;
`invoice_number text NOT NULL`. -/
def user_transactions_columns : List ColumnSpec :=
  [ { name := "id", sqlType := "serial", notNull := true, hasDefault := true },
    { name := "user_id", sqlType := "integer", notNull := true, hasDefault := false },
    { name := "invoice_number", sqlType := "text", notNull := true, hasDefault := false },
    { name := "service_id", sqlType := "integer", notNull := false, hasDefault := false },
    { name := "description", sqlType := "text", notNull := true, hasDefault := false },
    { name := "total_amount", sqlType := "integer", notNull := true, hasDefault := false },
    { name := "created_on", sqlType := "timestamp with time zone", notNull := false,
      hasDefault := false },
    { name := "transaction_type_id", sqlType := "integer", notNull := true,
      hasDefault := false } ]

/-- The column sets on which `user_transactions` declares uniqueness: only
the `PRIMARY KEY ("id")`. The `CREATE TABLE` declares no `UNIQUE`
constraint at all (contrast `user_balance`, which declares
`UNIQUE("user_id")`, and `transaction_type_enum`, which declares
`UNIQUE("transaction_type")`); in particular none on `invoice_number`. -/
def user_transactions_uniqueConstraints : List (List String) := [["id"]]

/-- The value a stored row exposes for a named column, rendered as text
(used only to compare rows under the declared uniqueness constraints). -/
def colValue (r : UTxnRow) (c : String) : Option String :=
  if c = "id" then some (toString r.id)
  else if c = "user_id" then some (toString r.user_id)
  else if c = "invoice_number" then some r.invoice_number
  else if c = "service_id" then r.service_id.map toString
  else if c = "description" then some r.description
  else if c = "total_amount" then some (toString r.total_amount)
  else if c = "created_on" then r.created_on.map toString
  else if c = "transaction_type_id" then some (toString r.transaction_type_id)
  else none

/-- No two entries of the list are equal. -/
def allDistinct : List (List (Option String)) → Bool
  | [] => true
  | x :: xs => (!(xs.contains x)) && allDistinct xs

/-- A table state satisfies every uniqueness constraint `user_transactions`
declares: for each declared unique column set, no two rows agree on it. -/
def utxnStateValid (rows : List UTxnRow) : Bool :=
  user_transactions_uniqueConstraints.all
    (fun cols => allDistinct (rows.map (fun r => cols.map (colValue r))))

/-! ## Account provisioning (`initialize_user_balance`, 0000_init.sql) -/

/-- The `users` / `user_balance` portion of the database: the ids of the
`users` rows, and the `user_balance` rows as `(user_id, balance)` pairs. -/
structure DBState where
  users : List Nat
  user_balance : List (Nat × Int)
deriving Repr, DecidableEq

/-- First `user_balance` row for a given `user_id`
(`SELECT balance FROM user_balance WHERE user_id = ...`). -/
def lookupBal : List (Nat × Int) → Nat → Option Int
  | [], _ => none
  | (k, v) :: rest, u => if k = u then some v else lookupBal rest u

/-- `initialize_user_balance` (0000_init.sql lines 53-61): insert a
`user_balance` row with balance 0 for the new user. -/
def initialize_user_balance (uid : Nat) (s : DBState) : DBState :=
  { s with user_balance := s.user_balance ++ [(uid, 0)] }

/-- `INSERT INTO users` together with its `AFTER INSERT` trigger
`trigger_initialize_user_balance`: the trigger runs inside the same
statement (hence the same atomic transaction) as the insert itself, so the
two are a single state transition. -/
def insert_user (uid : Nat) (s : DBState) : DBState :=
  initialize_user_balance uid { s with users := s.users ++ [uid] }

/-! ## The balance ledger engine

The controller `src/lib/routes/transaction/transaction.controller.js`
imports `./transaction.service.js`, which is not present in the repository
snapshot; the service bodies below are modelled from the spec (§4.3) while
the transaction wrapper (`db_conn.transaction` + `catchError`) is embedded
from the controller, which is present. -/

/-- A row of the `services` catalog (`services` table, 0000_init.sql):
`code`, `name` and fixed price `tariff`. -/
structure Service where
  code : String
  name : String
  tariff : Int
deriving Repr, DecidableEq

/-- Failures a ledger operation can raise (spec §7 taxonomy). -/
inductive TxnError where
  | accountNotFound
  | serviceNotFound
  | insufficientBalance
  | internalFault
deriving Repr, DecidableEq

/-- The tables the ledger engine touches. -/
structure EngineState where
  user_balance : List (Nat × Int)
  user_transactions : List UTxnRow
deriving Repr, DecidableEq

/-- SQL `UPDATE user_balance SET balance = nv WHERE user_id = u`: every row
whose `user_id` matches gets the new balance. -/
def updateBal : List (Nat × Int) → Nat → Int → List (Nat × Int)
  | [], _, _ => []
  | (k, v) :: rest, u, nv =>
    if k = u then (k, nv) :: updateBal rest u nv
    else (k, v) :: updateBal rest u nv

/-- Modelled from the spec: `transaction.service.js` (`topUpBalance`) is
imported by the controller but missing from the snapshot. Spec §4.3 Credit:
read the Balance row for the identity (`AccountNotFound` when absent — the
controller matches its message `'User not found'`), add the amount, write it
back, and insert a `TOPUP` ledger entry (invoice left NULL for the trigger,
`created_on` set to the current day) in the same unit of work. The amount is
positive by the time it reaches the engine (`validateTopUp` rejects
non-positive input before the controller runs). -/
def topUpBalance (dstr : String) (today : Nat) (uid : Nat) (amount : Int)
    (s : EngineState) : Except TxnError (EngineState × Int) :=
  match lookupBal s.user_balance uid with
  | none => .error .accountNotFound
  | some bal =>
    let newBal := bal + amount
    let entry : NewUTxn :=
      { user_id := uid, invoice_number := none, service_id := none,
        description := "Top Up balance", total_amount := amount,
        created_on := some today, transaction_type_id := 1 }
    match insert_user_transaction dstr today s.user_transactions
        (s.user_transactions.length + 1) entry with
    | none => .error .internalFault
    | some rows2 =>
      .ok ({ user_balance := updateBal s.user_balance uid newBal,
             user_transactions := rows2 }, newBal)

/-- Modelled from the spec: `transaction.service.js` (`createTransaction`)
is missing from the snapshot. Spec §4.3 Debit: resolve the service code
(`ServiceNotFound` when absent), read the Balance row, fail with
`InsufficientBalance` when `current < tariff`, otherwise write back
`current - tariff` and insert a `PAYMENT` ledger entry in the same unit of
work. -/
def createTransaction (catalog : List Service) (dstr : String) (today : Nat)
    (uid : Nat) (code : String) (s : EngineState) :
    Except TxnError (EngineState × Int) :=
  match catalog.find? (fun svc => svc.code == code) with
  | none => .error .serviceNotFound
  | some svc =>
    match lookupBal s.user_balance uid with
    | none => .error .accountNotFound
    | some bal =>
      if bal < svc.tariff then .error .insufficientBalance
      else
        let newBal := bal - svc.tariff
        let entry : NewUTxn :=
          { user_id := uid, invoice_number := none, service_id := none,
            description := svc.name, total_amount := svc.tariff,
            created_on := some today, transaction_type_id := 2 }
        match insert_user_transaction dstr today s.user_transactions
            (s.user_transactions.length + 1) entry with
        | none => .error .internalFault
        | some rows2 =>
          .ok ({ user_balance := updateBal s.user_balance uid newBal,
                 user_transactions := rows2 }, newBal)

/-- The controller's transaction wrapper
(`transaction.controller.js`): `db_conn.transaction(async (tx) => ...)`
together with `catchError` — when the service body throws, the database
transaction rolls back and the controller observes the error with the
pre-transaction state intact; on success the new state commits. -/
def runTx {α : Type} (f : EngineState → Except TxnError (EngineState × α))
    (s : EngineState) : EngineState × Option α :=
  match f s with
  | .ok (s2, a) => (s2, some a)
  | .error _ => (s, none)

/-- One valid inbound ledger operation for a fixed identity: a top-up with a
given amount, or a payment against a service code. -/
inductive Op where
  | credit (amount : Int)
  | debit (code : String)
deriving Repr, DecidableEq

/-- Apply one operation through the controller's transaction wrapper,
keeping the committed (or rolled-back) state. -/
def applyOp (catalog : List Service) (dstr : String) (today : Nat) (uid : Nat)
    (s : EngineState) : Op → EngineState
  | .credit a => (runTx (topUpBalance dstr today uid a) s).1
  | .debit c => (runTx (createTransaction catalog dstr today uid c) s).1

/-- Apply a sequence of operations in order. -/
def runOps (catalog : List Service) (dstr : String) (today : Nat) (uid : Nat)
    (s : EngineState) (ops : List Op) : EngineState :=
  ops.foldl (applyOp catalog dstr today uid) s

/-- The state of a freshly provisioned identity: one zero Balance row and no
ledger entries (§4.1). -/
def initialEngineState (uid : Nat) : EngineState :=
  { user_balance := [(uid, 0)], user_transactions := [] }

/-- The non-overdraft invariant for one identity: whenever the identity has
a Balance row, its amount is non-negative. -/
def BalNonneg (s : EngineState) (uid : Nat) : Prop :=
  ∀ b, lookupBal s.user_balance uid = some b → 0 ≤ b

/-! ## The history reader -/

/-- `a` sorts no later than `b` under `ORDER BY created_on DESC`: larger
timestamps first; a NULL `created_on` sorts first (Postgres `DESC` defaults
to `NULLS FIRST`). -/
def tsGE : Option Nat → Option Nat → Bool
  | none, _ => true
  | some _, none => false
  | some x, some y => y ≤ x

/-- Row ordering of the history query: `ORDER BY created_on DESC`. -/
def histBefore (a b : UTxnRow) : Prop := tsGE a.created_on b.created_on = true

instance : DecidableRel histBefore :=
  fun a b => inferInstanceAs (Decidable (tsGE a.created_on b.created_on = true))

instance : IsTotal UTxnRow histBefore where
  total a b := by
    unfold histBefore tsGE
    rcases a.created_on with _ | x <;> rcases b.created_on with _ | y <;> simp
    omega

instance : IsTrans UTxnRow histBefore where
  trans a b c := by
    unfold histBefore tsGE
    rcases a.created_on with _ | x <;> rcases b.created_on with _ | y <;>
      rcases c.created_on with _ | z <;> simp
    omega

/-- Modelled from the spec: `transaction.service.js`
(`getTransactionHistory`) is missing from the snapshot. Spec §4.4: the
identity's ledger rows ordered by creation timestamp descending, skipping
`offset` rows and returning at most `limit` rows. -/
def listHistory (rows : List UTxnRow) (uid : Nat) (off lim : Nat) : List UTxnRow :=
  (((rows.filter (fun r => r.user_id == uid)).insertionSort histBefore).drop off).take lim

/-- The controller's offset parsing (`transaction.controller.js` line 127):
`parseInt(req.query.offset) || 0` — an omitted parameter yields 0; a present
parameter has already been validated to a non-negative integer `n`, and
`n || 0 = n` (also at `n = 0`). -/
def effOffset : Option Nat → Nat
  | none => 0
  | some n => n

/-- The controller's limit parsing (`transaction.controller.js` line 128):
`req.query.limit ? parseInt(req.query.limit) : 5` — an omitted parameter
yields 5. -/
def effLimit : Option Nat → Nat
  | none => 5
  | some n => n

/-- The history endpoint: parse the optional query parameters as the
controller does, then read the window; the response carries the effective
offset, the effective limit and the records. -/
def getTransactionHistory (rows : List UTxnRow) (uid : Nat)
    (qoff qlim : Option Nat) : Nat × Nat × List UTxnRow :=
  (effOffset qoff, effLimit qlim, listHistory rows uid (effOffset qoff) (effLimit qlim))

/-! ## The top-up controller's error surfacing -/

/-- The JSON + HTTP shape of an error reply built by `error(res, message,
statusCode, status, data)` in `src/lib/api/response.js` (`data` is always
null on these paths). -/
structure ApiResponse where
  httpStatus : Nat
  status : Nat
  message : String
deriving Repr, DecidableEq

/-- `error(res, message, statusCode, status, null)` from
`src/lib/api/response.js`. -/
def errorResponse (message : String) (httpStatus status : Nat) : ApiResponse :=
  { httpStatus := httpStatus, status := status, message := message }

/-- The validation failure message `validateTopUp` and the service use. -/
def topUpValidationMsg : String :=
  "Paramter amount hanya boleh angka dan tidak boleh lebih kecil dari 0"

/-- The generic failure reply of the controller's catch-all branch:
`error(res, 'Internal server error', 500)` (status defaults to 100). -/
def genericFailure : ApiResponse := errorResponse "Internal server error" 500 100

/-- The error branch of `topUp` in `transaction.controller.js` (lines
50-63): match the thrown message; the validation message and
`'User not found'` get specific replies, everything else the generic one. -/
def topUpErrorResponse (msg : String) : ApiResponse :=
  if msg = topUpValidationMsg then errorResponse msg 400 102
  else if msg = "User not found" then errorResponse "User not found" 404 102
  else genericFailure

/-! ## Helper lemmas -/

theorem strAppend_assoc (a b c : String) : (a ++ b) ++ c = a ++ (b ++ c) := by
  rcases a with ⟨da⟩
  rcases b with ⟨db⟩
  rcases c with ⟨dc⟩
  show String.mk ((da ++ db) ++ dc) = String.mk (da ++ (db ++ dc))
  rw [List.append_assoc]

theorem lookupBal_append_right (l : List (Nat × Int)) (u : Nat) (v : Int)
    (h : lookupBal l u = none) : lookupBal (l ++ [(u, v)]) u = some v := by
  induction l with
  | nil => simp [lookupBal]
  | cons p rest ih =>
    obtain ⟨k, w⟩ := p
    by_cases hk : k = u
    · simp [lookupBal, hk] at h
    · simp only [List.cons_append, lookupBal, if_neg hk] at h ⊢
      exact ih h

theorem lookupBal_updateBal (l : List (Nat × Int)) (u : Nat) (nv : Int) :
    lookupBal (updateBal l u nv) u = (lookupBal l u).map (fun _ => nv) := by
  induction l with
  | nil => rfl
  | cons p rest ih =>
    obtain ⟨k, w⟩ := p
    by_cases hk : k = u
    · simp [updateBal, lookupBal, hk]
    · simp [updateBal, lookupBal, hk, ih]

/-! ## Claims -/

/-- C1: the claim says the allocator finds the day's last issued sequence by
numeric comparison, never lexicographic string ordering, and that same-day
invoice numbers are pairwise distinct and numerically increasing in creation
order. The code (`generate_invoice_number`, `ORDER BY invoice_number DESC`)
uses string ordering: starting from a day state holding `INV17082023-999`,
the allocator itself issues `INV17082023-1000` next, yet on the resulting
state it issues `INV17082023-1000` again — a duplicate — because the string
`INV17082023-999` is lexicographically greater than `INV17082023-1000`. -/
theorem generate_invoice_number_duplicates_seq_1000 :
    generate_invoice_number "17082023" 0
        [{ id := 1, user_id := 1, invoice_number := "INV17082023-999",
           created_on := some 0 }]
      = "INV17082023-1000"
    ∧ generate_invoice_number "17082023" 0
        [{ id := 1, user_id := 1, invoice_number := "INV17082023-999",
           created_on := some 0 },
         { id := 2, user_id := 1, invoice_number := "INV17082023-1000",
           created_on := some 0 }]
      = "INV17082023-1000"
    ∧ strLtB "INV17082023-1000" "INV17082023-999" = true := by
  decide

/-- C2 counterexample: the claim says `invoice_number` carries a uniqueness
constraint so no two stored ledger entries can share an invoice number. The
`CREATE TABLE "user_transactions"` statement declares uniqueness only for
the primary key `id`, so a two-row state sharing one invoice number
satisfies every uniqueness constraint the schema declares. -/
theorem duplicate_invoice_numbers_satisfy_schema :
    user_transactions_uniqueConstraints.all
        (fun cols => !(cols.contains "invoice_number")) = true
    ∧ utxnStateValid
        [{ id := 1, user_id := 1, invoice_number := "INV17082023-001",
           created_on := some 0 },
         { id := 2, user_id := 2, invoice_number := "INV17082023-001",
           created_on := some 0 }] = true := by
  decide

/-- C2 amended: `invoice_number` is declared `NOT NULL` but carries no
uniqueness constraint — the only uniqueness `user_transactions` declares is
its primary key on `id` — so the schema admits states in which two stored
ledger entries share an invoice number. -/
theorem invoice_number_not_null_without_unique_constraint :
    user_transactions_columns.find? (fun c => c.name == "invoice_number")
      = some { name := "invoice_number", sqlType := "text", notNull := true,
               hasDefault := false }
    ∧ user_transactions_uniqueConstraints = [["id"]]
    ∧ utxnStateValid
        [{ id := 3, user_id := 1, invoice_number := "INV17082023-002",
           created_on := some 0 },
         { id := 4, user_id := 1, invoice_number := "INV17082023-002",
           created_on := some 0 }] = true := by
  decide

/-- C7 counterexample: the claim says an `AccountNotFound` failure of a
top-up is surfaced only as a generic failure message. The controller's error
branch (`transaction.controller.js` lines 50-63) surfaces the service's
`'User not found'` as a specific HTTP 404 reply carrying that message, which
differs from the generic `'Internal server error'` reply. -/
theorem user_not_found_surfaced_specifically :
    topUpErrorResponse "User not found" = errorResponse "User not found" 404 102
    ∧ topUpErrorResponse "User not found" ≠ genericFailure := by
  decide

/-- C7 amended: when `topUpBalance` fails with `AccountNotFound` (thrown as
`'User not found'`), the controller surfaces a specific 404 reply with
message `'User not found'` and status 102; every error other than the
validation message and `'User not found'` is surfaced as the generic 500
`'Internal server error'` reply. -/
theorem topUp_error_mapping :
    topUpErrorResponse "User not found" = errorResponse "User not found" 404 102
    ∧ ∀ msg, msg ≠ topUpValidationMsg → msg ≠ "User not found" →
        topUpErrorResponse msg = genericFailure := by
  refine ⟨rfl, ?_⟩
  intro msg h1 h2
  simp [topUpErrorResponse, h1, h2]

/-- Witness for `topUp_error_mapping` at a concrete unexpected message. -/
theorem topUp_error_mapping_witness :
    topUpErrorResponse "database connection lost" = genericFailure :=
  topUp_error_mapping.2 "database connection lost" (by decide) (by decide)

/-- C8: the claim says SEQ increments by 1 for every ledger entry of the
day, across identities, padded to at least 3 digits and at natural width
past 999. The format, the start at 1, the padding and the width growth hold
(first three conjuncts), but the increment fails once a day passes 999: with
`INV01012024-999` and `INV01012024-1000` stored (different identities), the
next allocation repeats sequence 1000 instead of issuing 1001, contradicting
the code's own header comment that the sequence "grows dynamically (1000,
10000, etc.)". -/
theorem invoice_sequence_repeats_1000 :
    generate_invoice_number "01012024" 0 [] = "INV01012024-001"
    ∧ generate_invoice_number "01012024" 0
        [{ id := 1, user_id := 7, invoice_number := "INV01012024-042",
           created_on := some 0 }] = "INV01012024-043"
    ∧ generate_invoice_number "01012024" 0
        [{ id := 1, user_id := 7, invoice_number := "INV01012024-999",
           created_on := some 0 }] = "INV01012024-1000"
    ∧ generate_invoice_number "01012024" 0
        [{ id := 1, user_id := 7, invoice_number := "INV01012024-999",
           created_on := some 0 },
         { id := 2, user_id := 8, invoice_number := "INV01012024-1000",
           created_on := some 0 }] = "INV01012024-1000"
    ∧ "INV01012024-1000" ≠ "INV01012024-1001" := by
  decide

/-- C9: the invoice trigger fires only `WHEN (NEW.invoice_number IS NULL)`:
an insert that supplies an invoice number stores it verbatim — no format
check, no comparison against previously issued numbers. -/
theorem supplied_invoice_number_stored_verbatim (dstr : String) (today : Nat)
    (rows : List UTxnRow) (nid : Nat) (n : NewUTxn) (v : String)
    (h : n.invoice_number = some v) :
    insert_user_transaction dstr today rows nid n =
      some (rows ++ [{ id := nid, user_id := n.user_id, invoice_number := v,
                       service_id := n.service_id, description := n.description,
                       total_amount := n.total_amount, created_on := n.created_on,
                       transaction_type_id := n.transaction_type_id }]) := by
  simp [insert_user_transaction, applyInvoiceTrigger, h]

/-- Witness for `supplied_invoice_number_stored_verbatim`: the supplied
invoice collides with a stored one and is stored anyway. -/
theorem supplied_invoice_number_stored_verbatim_witness :
    insert_user_transaction "17082023" 0
        [{ id := 1, user_id := 1, invoice_number := "INV17082023-007",
           created_on := some 0 }]
        2
        { user_id := 2, invoice_number := some "INV17082023-007",
          created_on := some 0 } =
      some [{ id := 1, user_id := 1, invoice_number := "INV17082023-007",
              created_on := some 0 },
            { id := 2, user_id := 2, invoice_number := "INV17082023-007",
              service_id := none, description := "", total_amount := 0,
              created_on := some 0, transaction_type_id := 1 }] :=
  supplied_invoice_number_stored_verbatim _ _ _ _ _ _ rfl

/-- C4: `INSERT INTO users` and its `AFTER INSERT` trigger
`initialize_user_balance` form one state transition (`insert_user`), so
creating an identity also creates its Balance row, initialized to zero, in
the same atomic unit; `insert_user` is the only identity-creating operation
in the model, so no path creates an identity without its zero balance. -/
theorem insert_user_provisions_zero_balance (s : DBState) (uid : Nat)
    (h : lookupBal s.user_balance uid = none) :
    (insert_user uid s).users = s.users ++ [uid]
    ∧ lookupBal (insert_user uid s).user_balance uid = some 0 := by
  refine ⟨rfl, ?_⟩
  simpa [insert_user, initialize_user_balance] using
    lookupBal_append_right s.user_balance uid 0 h

/-- Witness for `insert_user_provisions_zero_balance` on an empty database. -/
theorem insert_user_provisions_zero_balance_witness :
    (insert_user 1 { users := [], user_balance := [] }).users = [1]
    ∧ lookupBal (insert_user 1 { users := [], user_balance := [] }).user_balance 1
      = some 0 :=
  insert_user_provisions_zero_balance { users := [], user_balance := [] } 1 rfl

/-- C3: when the debit service body fails — unknown service code,
insufficient balance, or any other error — the controller's
`db_conn.transaction` wrapper rolls the unit of work back: the observed
state keeps the balance rows and the ledger rows exactly as they were, and
no result is produced. -/
theorem debit_failure_leaves_state_unchanged (catalog : List Service)
    (dstr : String) (today uid : Nat) (code : String) (s : EngineState)
    (e : TxnError)
    (h : createTransaction catalog dstr today uid code s = .error e) :
    (runTx (createTransaction catalog dstr today uid code) s).1.user_balance
      = s.user_balance
    ∧ (runTx (createTransaction catalog dstr today uid code) s).1.user_transactions
      = s.user_transactions
    ∧ (runTx (createTransaction catalog dstr today uid code) s).2 = none := by
  simp [runTx, h]

/-- Witness for `debit_failure_leaves_state_unchanged`: a debit of tariff 5
against balance 3 fails with `insufficientBalance` and changes nothing. -/
theorem debit_failure_leaves_state_unchanged_witness :
    (runTx (createTransaction [{ code := "PULSA", name := "Pulsa", tariff := 5 }]
        "17082023" 0 1 "PULSA")
        { user_balance := [(1, 3)], user_transactions := [] }).1.user_balance
      = [(1, 3)]
    ∧ (runTx (createTransaction [{ code := "PULSA", name := "Pulsa", tariff := 5 }]
        "17082023" 0 1 "PULSA")
        { user_balance := [(1, 3)], user_transactions := [] }).1.user_transactions
      = []
    ∧ (runTx (createTransaction [{ code := "PULSA", name := "Pulsa", tariff := 5 }]
        "17082023" 0 1 "PULSA")
        { user_balance := [(1, 3)], user_transactions := [] }).2 = none :=
  debit_failure_leaves_state_unchanged
    [{ code := "PULSA", name := "Pulsa", tariff := 5 }] "17082023" 0 1 "PULSA"
    { user_balance := [(1, 3)], user_transactions := [] }
    .insufficientBalance rfl

/-- The allocator's scan returns nothing when every stored row has a NULL
`created_on`: `DATE(created_on) = CURRENT_DATE` never holds on NULL. -/
theorem todaysInvoices_all_null (dstr : String) (today : Nat)
    (rows : List UTxnRow) (h : ∀ r ∈ rows, r.created_on = none) :
    todaysInvoices dstr today rows = [] := by
  unfold todaysInvoices
  rw [List.filter_eq_nil_iff.mpr]
  · rfl
  · intro r hr
    simp [h r hr]

/-- C10: `created_on` is nullable with no default; a row inserted with NULL
`created_on` never enters the allocator's scan, and when all of a day's
stored rows have NULL `created_on` the allocator restarts the day's
sequence at 1 (`INV{date}-001`). -/
theorem null_created_on_invisible_to_allocator :
    user_transactions_columns.find? (fun c => c.name == "created_on")
      = some { name := "created_on", sqlType := "timestamp with time zone",
               notNull := false, hasDefault := false }
    ∧ (∀ dstr today (rows : List UTxnRow) (r : UTxnRow), r.created_on = none →
        todaysInvoices dstr today (rows ++ [r]) = todaysInvoices dstr today rows)
    ∧ (∀ dstr today (rows : List UTxnRow), (∀ r ∈ rows, r.created_on = none) →
        generate_invoice_number dstr today rows = "INV" ++ dstr ++ "-001") := by
  refine ⟨by decide, ?_, ?_⟩
  · intro dstr today rows r hr
    unfold todaysInvoices
    rw [List.filter_append]
    have h1 : List.filter (fun r =>
        r.created_on == some today &&
        likeB ("INV" ++ dstr ++ "-") r.invoice_number) [r] = [] := by
      simp [hr]
    rw [h1]
    simp
  · intro dstr today rows h
    have h0 := todaysInvoices_all_null dstr today rows h
    unfold generate_invoice_number next_sequence
    rw [h0, strAppend_assoc]
    rfl

/-- Witness for `null_created_on_invisible_to_allocator`: an invoice issued
earlier today but stored with NULL `created_on` is ignored, and the next
allocation restarts at 001. -/
theorem null_created_on_invisible_to_allocator_witness :
    generate_invoice_number "17082023" 5
        [{ id := 1, user_id := 1, invoice_number := "INV17082023-005",
           created_on := none }]
      = "INV17082023-001" :=
  null_created_on_invisible_to_allocator.2.2 "17082023" 5
    [{ id := 1, user_id := 1, invoice_number := "INV17082023-005",
       created_on := none }] (by decide)

theorem nonneg_after_runTx {α : Type}
    {f : EngineState → Except TxnError (EngineState × α)} {s : EngineState}
    {uid : Nat} (hs : BalNonneg s uid)
    (h : ∀ s2 r, f s = .ok (s2, r) → BalNonneg s2 uid) :
    BalNonneg (runTx f s).1 uid := by
  unfold runTx
  cases hf : f s with
  | ok p =>
    obtain ⟨s2, r⟩ := p
    simpa using h s2 r hf
  | error e => simpa using hs

theorem topUpBalance_ok (dstr : String) (today uid : Nat) (a : Int)
    (s s2 : EngineState) (r : Int)
    (h : topUpBalance dstr today uid a s = .ok (s2, r)) :
    ∃ bal, lookupBal s.user_balance uid = some bal ∧
      s2.user_balance = updateBal s.user_balance uid (bal + a) := by
  unfold topUpBalance at h
  split at h
  · exact absurd h (by simp)
  case _ bal h1 =>
    dsimp only at h
    split at h
    · exact absurd h (by simp)
    case _ rows2 h2 =>
      refine ⟨bal, h1, ?_⟩
      simp only [Except.ok.injEq, Prod.mk.injEq] at h
      rw [← h.1]

theorem createTransaction_ok (catalog : List Service) (dstr : String)
    (today uid : Nat) (code : String) (s s2 : EngineState) (r : Int)
    (h : createTransaction catalog dstr today uid code s = .ok (s2, r)) :
    ∃ svc bal, catalog.find? (fun v => v.code == code) = some svc ∧
      lookupBal s.user_balance uid = some bal ∧ ¬bal < svc.tariff ∧
      s2.user_balance = updateBal s.user_balance uid (bal - svc.tariff) := by
  unfold createTransaction at h
  split at h
  · exact absurd h (by simp)
  case _ svc hsvc =>
    split at h
    · exact absurd h (by simp)
    case _ bal h1 =>
      split at h
      · exact absurd h (by simp)
      case _ hlt =>
        dsimp only at h
        split at h
        · exact absurd h (by simp)
        case _ rows2 h2 =>
          refine ⟨svc, bal, hsvc, h1, hlt, ?_⟩
          simp only [Except.ok.injEq, Prod.mk.injEq] at h
          rw [← h.1]

theorem applyOp_preserves_nonneg (catalog : List Service) (dstr : String)
    (today uid : Nat) (op : Op) (s : EngineState)
    (htar : ∀ svc ∈ catalog, 0 ≤ svc.tariff)
    (hop : ∀ a, op = Op.credit a → 0 < a) (hs : BalNonneg s uid) :
    BalNonneg (applyOp catalog dstr today uid s op) uid := by
  cases op with
  | credit a =>
    have ha : 0 < a := hop a rfl
    refine nonneg_after_runTx hs ?_
    intro s2 r hok b hb
    obtain ⟨bal, h1, h2⟩ := topUpBalance_ok dstr today uid a s s2 r hok
    rw [h2, lookupBal_updateBal, h1] at hb
    have hbal := hs bal h1
    simp only [Option.map_some', Option.some.injEq] at hb
    omega
  | debit c =>
    refine nonneg_after_runTx hs ?_
    intro s2 r hok b hb
    obtain ⟨svc, bal, hsvc, h1, hlt, h2⟩ :=
      createTransaction_ok catalog dstr today uid c s s2 r hok
    rw [h2, lookupBal_updateBal, h1] at hb
    have hbal := hs bal h1
    have htar2 := htar svc (List.mem_of_find?_eq_some hsvc)
    simp only [Option.map_some', Option.some.injEq] at hb
    omega

theorem runOps_preserves_nonneg (catalog : List Service) (dstr : String)
    (today uid : Nat) (ops : List Op) (s : EngineState)
    (htar : ∀ svc ∈ catalog, 0 ≤ svc.tariff)
    (hops : ∀ a, Op.credit a ∈ ops → 0 < a) (hs : BalNonneg s uid) :
    BalNonneg (runOps catalog dstr today uid s ops) uid := by
  induction ops generalizing s with
  | nil => exact hs
  | cons op rest ih =>
    refine ih _ (fun a ha => hops a (List.mem_cons_of_mem op ha)) ?_
    exact applyOp_preserves_nonneg catalog dstr today uid op s htar
      (fun a ha => hops a (ha ▸ List.mem_cons_self _ _)) hs

/-- C5: starting from the freshly provisioned zero balance, any sequence of
valid operations — credits with positive amounts, debits against a catalog
of non-negatively priced services — keeps the stored balance non-negative at
every observable point (after every prefix of the sequence): a debit whose
tariff exceeds the current balance fails and rolls back instead of
overdrafting. -/
theorem balance_never_negative (catalog : List Service) (dstr : String)
    (today uid : Nat) (ops l1 l2 : List Op) (b : Int)
    (htar : ∀ svc ∈ catalog, 0 ≤ svc.tariff)
    (hops : ∀ a, Op.credit a ∈ ops → 0 < a)
    (hsplit : ops = l1 ++ l2)
    (hb : lookupBal
        (runOps catalog dstr today uid (initialEngineState uid) l1).user_balance
        uid = some b) :
    0 ≤ b := by
  have h0 : BalNonneg (initialEngineState uid) uid := by
    intro v hv
    simp [initialEngineState, lookupBal] at hv
    omega
  have h1 : ∀ a, Op.credit a ∈ l1 → 0 < a := by
    intro a ha
    exact hops a (hsplit ▸ List.mem_append_left l2 ha)
  exact runOps_preserves_nonneg catalog dstr today uid l1
    (initialEngineState uid) htar h1 h0 b hb

/-- Witness for `balance_never_negative`: a top-up of 10 followed by three
debits of tariff 5 (the third fails for insufficient balance) ends at
balance 0, which is non-negative. -/
theorem balance_never_negative_witness : (0 : Int) ≤ 0 :=
  balance_never_negative [{ code := "PULSA", name := "Pulsa", tariff := 5 }]
    "17082023" 0 1
    [Op.credit 10, Op.debit "PULSA", Op.debit "PULSA", Op.debit "PULSA"]
    [Op.credit 10, Op.debit "PULSA", Op.debit "PULSA", Op.debit "PULSA"] []
    0 (by decide)
    (by intro a ha; simp at ha; omega)
    rfl (by decide)

/-- C6: the history read defaults to offset 0 and limit 5 when the caller
omits the query parameters, returns only the identity's ledger entries
ordered by creation timestamp descending, skips `offset` rows, returns at
most `limit` rows, and returns an empty window (not an error) when the
offset is at or beyond the identity's record count. -/
theorem getTransactionHistory_contract :
    (∀ rows uid, getTransactionHistory rows uid none none
      = (0, 5, listHistory rows uid 0 5))
    ∧ (∀ rows uid off lim, List.Sorted histBefore (listHistory rows uid off lim))
    ∧ (∀ rows uid off lim, (listHistory rows uid off lim).length ≤ lim)
    ∧ (∀ (rows : List UTxnRow) uid off lim,
        (rows.filter (fun r => r.user_id == uid)).length ≤ off →
        listHistory rows uid off lim = [])
    ∧ (∀ rows uid off lim t, t ∈ listHistory rows uid off lim →
        t.user_id = uid) := by
  refine ⟨fun rows uid => rfl, ?_, ?_, ?_, ?_⟩
  · intro rows uid off lim
    have hsorted := List.sorted_insertionSort histBefore
      (rows.filter (fun r => r.user_id == uid))
    exact List.Pairwise.sublist
      ((List.take_sublist _ _).trans (List.drop_sublist _ _)) hsorted
  · intro rows uid off lim
    exact List.length_take_le _ _
  · intro rows uid off lim h
    unfold listHistory
    rw [List.drop_eq_nil_of_le, List.take_nil]
    rw [List.length_insertionSort]
    exact h
  · intro rows uid off lim t ht
    have h1 : t ∈ (rows.filter (fun r => r.user_id == uid)).insertionSort
        histBefore :=
      List.mem_of_mem_drop (List.mem_of_mem_take ht)
    have h2 : t ∈ rows.filter (fun r => r.user_id == uid) :=
      (List.perm_insertionSort histBefore _).mem_iff.mp h1
    have h3 := List.of_mem_filter h2
    simpa using h3

/-- Witness for `getTransactionHistory_contract`: with two stored entries,
an offset of 7 is beyond the record count and yields an empty window. -/
theorem getTransactionHistory_contract_witness :
    listHistory
      [{ id := 1, user_id := 1, invoice_number := "INV17082023-001",
         created_on := some 0 },
       { id := 2, user_id := 1, invoice_number := "INV17082023-002",
         created_on := some 1 }] 1 7 5 = [] :=
  getTransactionHistory_contract.2.2.2.1
    [{ id := 1, user_id := 1, invoice_number := "INV17082023-001",
       created_on := some 0 },
     { id := 2, user_id := 1, invoice_number := "INV17082023-002",
       created_on := some 1 }] 1 7 5 (by decide)

end NutechLedger
